import Mathlib

/-
  Verification of the Sistema-de-Pedidos order-management backend.

  The embedding translates the business core of `models.py`, `auth_routes.py`
  and `order_routes.py` into pure Lean functions.  Persistent state (the SQLite
  tables `usuarios`, `pedidos`, `itens_pedido`) is a record of lists; every
  route that mutates state returns the new state together with its HTTP result,
  and a route that raises an `HTTPException` before mutating returns the state
  unchanged, exactly as the source does (the exception aborts the request
  before any commit).  External primitives that live outside the repository
  (bcrypt hashing/verification, `jwt.decode` with the server secret) are taken
  as function parameters.  SQL floats are modelled as rationals.
-/

namespace SistemaDePedidos

/-- FastAPI `HTTPException`: a status code together with a detail message. -/
structure HTTPException where
  status_code : Nat
  detail : String
deriving DecidableEq, Repr

/-- Table row of `usuarios` (`models.Usuario`). -/
structure Usuario where
  id : Nat
  nome : String
  email : String
  senha : String
  ativo : Bool
  admin : Bool
deriving DecidableEq, Repr

/-- Table row of `pedidos` (`models.Pedido`); the `itens` relationship is the
set of `ItemPedido` rows whose foreign key `pedido` equals this row's id. -/
structure Pedido where
  id : Nat
  status : String
  usuario : Nat
  preco : ℚ
deriving DecidableEq, Repr

/-- Table row of `itens_pedido` (`models.ItemPedido`). -/
structure ItemPedido where
  id : Nat
  quantidade : Nat
  sabor : String
  tamanho : String
  preco_unitario : ℚ
  pedido : Nat
deriving DecidableEq, Repr

/-- The persistent store: the three tables of `banco.db`. -/
structure DB where
  usuarios : List Usuario
  pedidos : List Pedido
  itens : List ItemPedido
deriving DecidableEq, Repr

/-- The `itens` relationship of a `Pedido`: all rows of `itens_pedido` whose
foreign key points at the given order id. -/
def DB.itensDoPedido (db : DB) (idPedido : Nat) : List ItemPedido :=
  db.itens.filter (fun it => it.pedido == idPedido)

/-- `Pedido.calcular_preco` (models.py lines 58-62):
`sum(item.preco_unitario * item.quantidade for item in self.itens)`. -/
def calcular_preco (itens : List ItemPedido) : ℚ :=
  (itens.map (fun it => it.preco_unitario * (it.quantidade : ℚ))).sum

/-- Committing a mutated ORM `Pedido` object: the row with its id is replaced. -/
def atualizar_pedido (db : DB) (p : Pedido) : DB :=
  { db with pedidos := db.pedidos.map (fun q => if q.id == p.id then p else q) }

/-- `order_routes.obter_pedido_autorizado` (lines 13-31): look the order up,
404 if absent, 403 if the caller is neither admin nor the owner. -/
def obter_pedido_autorizado (db : DB) (usuario : Usuario) (id_pedido : Nat) :
    Except HTTPException Pedido :=
  match db.pedidos.find? (fun p => p.id == id_pedido) with
  | none => .error ⟨404, "Pedido não encontrado"⟩
  | some pedido =>
    if !usuario.admin && usuario.id != pedido.usuario then
      .error ⟨403, "Você não tem autorização para realizar esta ação"⟩
    else
      .ok pedido

/-- `order_routes.obter_item_pedido_autorizado` (lines 34-54): look the item
up, 404 if absent, then resolve its parent order and check ownership against
the parent.  When the parent row is missing the Python source dereferences
`None` and raises `AttributeError` (a 500); the foreign-key constraint makes
that branch unreachable on a consistent store. -/
def obter_item_pedido_autorizado (db : DB) (usuario : Usuario) (id_item_pedido : Nat) :
    Except HTTPException ItemPedido :=
  match db.itens.find? (fun it => it.id == id_item_pedido) with
  | none => .error ⟨404, "Item de pedido não encontrado"⟩
  | some item_pedido =>
    match db.pedidos.find? (fun p => p.id == item_pedido.pedido) with
    | none => .error ⟨500, "AttributeError"⟩
    | some pedido_do_item =>
      if !usuario.admin && usuario.id != pedido_do_item.usuario then
        .error ⟨403, "Você não tem autorização para realizar esta ação"⟩
      else
        .ok item_pedido

/-- `order_routes.listar_todos_pedidos` (lines 57-108): admin-only listing. -/
def listar_todos_pedidos (db : DB) (usuario : Usuario) :
    Except HTTPException (List Pedido) :=
  if !usuario.admin then
    .error ⟨403, "Você não tem autorização para acessar esta rota"⟩
  else
    .ok db.pedidos

/-- `order_routes.listar_meus_pedidos` (lines 160-214): the caller's orders. -/
def listar_meus_pedidos (db : DB) (usuario : Usuario) : List Pedido :=
  db.pedidos.filter (fun p => p.usuario == usuario.id)

/-- `order_routes.visualizar_pedido` (lines 217-265): returns the order
resolved by the authorization dependency. -/
def visualizar_pedido (db : DB) (usuario : Usuario) (id_pedido : Nat) :
    Except HTTPException Pedido :=
  obter_pedido_autorizado db usuario id_pedido

/-- `order_routes.cancelar_pedido` (lines 268-309): guard
`pedido.status not in ["PENDENTE", "EM_PREPARO"]`, else set CANCELADO. -/
def cancelar_pedido (db : DB) (usuario : Usuario) (id_pedido : Nat) :
    DB × Except HTTPException Pedido :=
  match obter_pedido_autorizado db usuario id_pedido with
  | .error e => (db, .error e)
  | .ok pedido =>
    if pedido.status != "PENDENTE" && pedido.status != "EM_PREPARO" then
      (db, .error ⟨400, "Não é possível cancelar um pedido com status \x27"
        ++ pedido.status ++ "\x27"⟩)
    else
      let atualizado := { pedido with status := "CANCELADO" }
      (atualizar_pedido db atualizado, .ok atualizado)

/-- `order_routes.finalizar_pedido` (lines 312-353): guard
`pedido.status != "EM_PREPARO"`, else set FINALIZADO. -/
def finalizar_pedido (db : DB) (usuario : Usuario) (id_pedido : Nat) :
    DB × Except HTTPException Pedido :=
  match obter_pedido_autorizado db usuario id_pedido with
  | .error e => (db, .error e)
  | .ok pedido =>
    if pedido.status != "EM_PREPARO" then
      (db, .error ⟨400, "Só é possível finalizar um pedido com status \x27EM_PREPARO\x27"⟩)
    else
      let atualizado := { pedido with status := "FINALIZADO" }
      (atualizar_pedido db atualizado, .ok atualizado)

/-- Request body of `schemas.ItemPedidoSchema`. -/
structure ItemPedidoSchema where
  quantidade : Nat
  sabor : String
  tamanho : String
  preco_unitario : ℚ
deriving DecidableEq, Repr

/-- `order_routes.adicionar_item_pedido` (lines 356-427): insert the new item
(`session.add`), then `pedido.calcular_preco()` runs over the flushed item set
including the new row (the session autoflushes when the relationship is read),
then commit.  `novo_id` is the autoincrement id the store assigns. -/
def adicionar_item_pedido (db : DB) (usuario : Usuario) (id_pedido : Nat)
    (item_schema : ItemPedidoSchema) (novo_id : Nat) :
    DB × Except HTTPException Pedido :=
  match obter_pedido_autorizado db usuario id_pedido with
  | .error e => (db, .error e)
  | .ok pedido =>
    let item_pedido : ItemPedido :=
      { id := novo_id
        quantidade := item_schema.quantidade
        sabor := item_schema.sabor
        tamanho := item_schema.tamanho
        preco_unitario := item_schema.preco_unitario
        pedido := pedido.id }
    let apos_insercao : DB := { db with itens := db.itens ++ [item_pedido] }
    let atualizado : Pedido :=
      { pedido with preco := calcular_preco (apos_insercao.itensDoPedido pedido.id) }
    (atualizar_pedido apos_insercao atualizado, .ok atualizado)

/-- `order_routes.remover_item_pedido` (lines 430-474): resolve the item via
the item authorization dependency, fetch its parent order, delete the item
(`session.delete`), recompute the parent's price over the remaining items,
commit. -/
def remover_item_pedido (db : DB) (usuario : Usuario) (id_item_pedido : Nat) :
    DB × Except HTTPException Pedido :=
  match obter_item_pedido_autorizado db usuario id_item_pedido with
  | .error e => (db, .error e)
  | .ok item_pedido =>
    match db.pedidos.find? (fun p => p.id == item_pedido.pedido) with
    | none => (db, .error ⟨500, "AttributeError"⟩)
    | some pedido =>
      let apos_remocao : DB :=
        { db with itens := db.itens.filter (fun it => it.id != item_pedido.id) }
      let atualizado : Pedido :=
        { pedido with preco := calcular_preco (apos_remocao.itensDoPedido pedido.id) }
      (atualizar_pedido apos_remocao atualizado, .ok atualizado)

/-- `auth_routes.autenticar_usuario` (lines 33-39): look the account up by
email; `verify` abstracts `bcrypt_context.verify`.  The Python `False` result
is modelled as `none`. -/
def autenticar_usuario (verify : String → String → Bool)
    (email senha : String) (db : DB) : Option Usuario :=
  match db.usuarios.find? (fun u => u.email == email) with
  | none => none
  | some usuario =>
    if !(verify senha usuario.senha) then none
    else some usuario

/-- Claims of a token produced by `auth_routes.criar_token` (lines 24-31):
subject string and expiry instant; the JWT signature is outside the model. -/
structure TokenData where
  sub : String
  exp : Nat
deriving DecidableEq, Repr

/-- `auth_routes.criar_token`: subject is the decimal user id, expiry is now
plus the requested duration (in minutes). -/
def criar_token (id_usuario : Nat) (duracao_token : Nat) (agora : Nat) : TokenData :=
  { sub := toString id_usuario, exp := agora + duracao_token }

/-- Response body of `auth_routes.TokenSchema`. -/
structure TokenResposta where
  access_token : TokenData
  refresh_token : Option TokenData
  token_type : String
deriving DecidableEq, Repr

/-- `auth_routes.login` (lines 234-290): authenticate, 401 on failure, else an
access token (`expire_minutes`) and a 7-day refresh token. -/
def login (verify : String → String → Bool) (expire_minutes : Nat) (agora : Nat)
    (db : DB) (email senha : String) : Except HTTPException TokenResposta :=
  match autenticar_usuario verify email senha db with
  | none => .error ⟨401, "Usuário ou senha inválidos"⟩
  | some usuario =>
    .ok { access_token := criar_token usuario.id expire_minutes agora
          refresh_token := some (criar_token usuario.id (7 * 24 * 60) agora)
          token_type := "Bearer" }

/-- Request body of `schemas.UsuarioSchema` (the public registration schema
carries no `admin` field). -/
structure UsuarioSchema where
  nome : String
  email : String
  senha : String
  ativo : Bool
deriving DecidableEq, Repr

/-- `auth_routes.criar_conta` (lines 126-154): duplicate-email check, then
persist a new account with the bcrypt hash of the password, `ativo=True`,
`admin=False`.  `hash` abstracts `bcrypt_context.hash`; `novo_id` is the
autoincrement id the store assigns. -/
def criar_conta (hash : String → String) (db : DB) (usuario_schema : UsuarioSchema)
    (novo_id : Nat) : DB × Except HTTPException String :=
  match db.usuarios.find? (fun u => u.email == usuario_schema.email) with
  | some _ => (db, .error ⟨400, "Já existe um usuário com esse email"⟩)
  | none =>
    let novo_usuario : Usuario :=
      { id := novo_id
        nome := usuario_schema.nome
        email := usuario_schema.email
        senha := hash usuario_schema.senha
        ativo := true
        admin := false }
    ({ db with usuarios := db.usuarios ++ [novo_usuario] },
     .ok ("Usuário " ++ novo_usuario.email ++ " criado com sucesso"))

/-- Decoded JWT payload as seen by `pegar_usuario_logado_opcional`: only the
`sub` claim is read, and it may be absent. -/
structure JwtPayload where
  sub : Option String
deriving DecidableEq, Repr

/-- `auth_routes.pegar_usuario_logado_opcional` (lines 44-64).  `decode`
abstracts `jwt.decode(token, SECRET_KEY, [ALGORITHM])`, returning `none` when
the library raises `JWTError` (malformed, expired, bad signature); `int_py`
abstracts the Python builtin `int` applied to the subject string (with its
full acceptance rules: optional sign, surrounding whitespace, underscore
separators, Unicode decimal digits), returning `none` exactly when `int()`
raises ValueError.  That `int(id_usuario)` call sits outside the try/except in
the source, so a subject the builtin rejects raises an uncaught `ValueError`,
modelled by the `.error` result; all caught failures return `.ok none`. -/
def pegar_usuario_logado_opcional (decode : String → Option JwtPayload)
    (int_py : String → Option Int) (db : DB) (token : Option String) :
    Except String (Option Usuario) :=
  match token with
  | none => .ok none
  | some t =>
    match decode t with
    | none => .ok none
    | some payload =>
      match payload.sub with
      | none => .ok none
      | some id_usuario =>
        match int_py id_usuario with
        | none => .error ("ValueError")
        | some n => .ok (db.usuarios.find? (fun u => (u.id : Int) == n))

/-! Example rows used to instantiate the theorems on concrete inputs. -/

/-- A regular (non-admin) customer who owns the two example orders. -/
def exUser : Usuario :=
  { id := 1, nome := "Ana", email := "ana@x.com", senha := "h1", ativo := true, admin := false }

/-- A second regular customer owning nothing. -/
def exOutro : Usuario :=
  { id := 2, nome := "Beto", email := "beto@x.com", senha := "h2", ativo := true, admin := false }

/-- An administrator account. -/
def exAdmin : Usuario :=
  { id := 3, nome := "Root", email := "root@x.com", senha := "h3", ativo := true, admin := true }

/-- A deactivated account. -/
def exInativo : Usuario :=
  { id := 4, nome := "Ina", email := "ina@x.com", senha := "h4", ativo := false, admin := false }

/-- A pending order owned by `exUser`. -/
def exPedido1 : Pedido := { id := 1, status := "PENDENTE", usuario := 1, preco := 0 }

/-- A finalized order owned by `exUser`, holding `exItem1`. -/
def exPedido2 : Pedido := { id := 2, status := "FINALIZADO", usuario := 1, preco := 5 }

/-- The single line item of `exPedido2`. -/
def exItem1 : ItemPedido :=
  { id := 1, quantidade := 1, sabor := "Soda", tamanho := "Lata", preco_unitario := 5, pedido := 2 }

/-- The example store. -/
def exDB : DB :=
  { usuarios := [exUser, exOutro, exAdmin, exInativo]
    pedidos := [exPedido1, exPedido2]
    itens := [exItem1] }

/-- Request body used by the witnesses: two burgers at 10 each. -/
def exSchema : ItemPedidoSchema :=
  { quantidade := 2, sabor := "Burger", tamanho := "Grande", preco_unitario := 10 }

/-- Store after `exUser` adds `exSchema` to order 1 of `exDB`. -/
def exC1DB2 : DB := (adicionar_item_pedido exDB exUser 1 exSchema 9).1

/-- The order row returned by that AddItem call. -/
def exC1P2 : Pedido := { id := 1, status := "PENDENTE", usuario := 1, preco := 20 }

/-! Helper lemmas shared by the claim theorems. -/

/-- After committing a mutated order, any stored row carrying its id is that
mutated order. -/
theorem mem_atualizar_pedido {db : DB} {p q : Pedido}
    (hq : q ∈ (atualizar_pedido db p).pedidos) (hid : q.id = p.id) : q = p := by
  rcases List.mem_map.1 hq with ⟨r, _, hr2⟩
  by_cases h : (r.id == p.id) = true
  · rw [if_pos h] at hr2
    exact hr2.symm
  · rw [if_neg h] at hr2
    subst hr2
    exact absurd (beq_iff_eq.2 hid) h

/-- Committing a mutated order leaves the item table untouched. -/
theorem atualizar_pedido_itens (db : DB) (p : Pedido) :
    (atualizar_pedido db p).itens = db.itens := rfl

/-- C2: given the authorization dependency resolved the order, Cancel succeeds
and sets the status to CANCELADO iff the current status is PENDENTE or
EM_PREPARO; from any other status it fails with a 400 whose message contains
the current status, and the store is returned unchanged. -/
theorem C2_cancelamento (db : DB) (u : Usuario) (idp : Nat) (pedido : Pedido)
    (hob : obter_pedido_autorizado db u idp = .ok pedido) :
    ((pedido.status = "PENDENTE" ∨ pedido.status = "EM_PREPARO") →
      cancelar_pedido db u idp =
        (atualizar_pedido db { pedido with status := "CANCELADO" },
         .ok { pedido with status := "CANCELADO" })) ∧
    (pedido.status ≠ "PENDENTE" → pedido.status ≠ "EM_PREPARO" →
      cancelar_pedido db u idp =
        (db, .error ⟨400, "Não é possível cancelar um pedido com status \x27"
          ++ pedido.status ++ "\x27"⟩) ∧
      ∃ a b : String,
        "Não é possível cancelar um pedido com status \x27" ++ pedido.status ++ "\x27"
          = a ++ pedido.status ++ b) := by
  constructor
  · intro hs
    rcases hs with hs | hs <;> simp [cancelar_pedido, hob, hs]
  · intro h1 h2
    exact ⟨by simp [cancelar_pedido, hob, h1, h2],
      "Não é possível cancelar um pedido com status \x27", "\x27", rfl⟩

/-- Witness for C2: cancelling the pending example order succeeds, and
cancelling the finalized one fails with its status quoted in the message. -/
theorem C2_cancelamento_witness :
    cancelar_pedido exDB exUser 1 =
      (atualizar_pedido exDB { exPedido1 with status := "CANCELADO" },
       .ok { exPedido1 with status := "CANCELADO" }) ∧
    cancelar_pedido exDB exUser 2 =
      (exDB, .error ⟨400, "Não é possível cancelar um pedido com status \x27"
        ++ exPedido2.status ++ "\x27"⟩) :=
  ⟨(C2_cancelamento exDB exUser 1 exPedido1 rfl).1 (Or.inl rfl),
   ((C2_cancelamento exDB exUser 2 exPedido2 rfl).2
      (by decide) (by decide)).1⟩

/-- C3: given the authorization dependency resolved the order, Finalize
succeeds and sets the status to FINALIZADO iff the current status is exactly
EM_PREPARO; from any other status it fails with a 400 and the store is
returned unchanged. -/
theorem C3_finalizacao (db : DB) (u : Usuario) (idp : Nat) (pedido : Pedido)
    (hob : obter_pedido_autorizado db u idp = .ok pedido) :
    (pedido.status = "EM_PREPARO" →
      finalizar_pedido db u idp =
        (atualizar_pedido db { pedido with status := "FINALIZADO" },
         .ok { pedido with status := "FINALIZADO" })) ∧
    (pedido.status ≠ "EM_PREPARO" →
      finalizar_pedido db u idp =
        (db, .error ⟨400,
          "Só é possível finalizar um pedido com status \x27EM_PREPARO\x27"⟩)) := by
  constructor
  · intro hs
    simp [finalizar_pedido, hob, hs]
  · intro hs
    simp [finalizar_pedido, hob, hs]

/-- Witness for C3: finalizing the pending example order fails; after the
status is EM_PREPARO, finalizing succeeds. -/
theorem C3_finalizacao_witness :
    finalizar_pedido exDB exUser 1 =
      (exDB, .error ⟨400,
        "Só é possível finalizar um pedido com status \x27EM_PREPARO\x27"⟩) :=
  (C3_finalizacao exDB exUser 1 exPedido1 rfl).2 (by decide)

/-- C1: immediately after a committed AddItem or RemoveItem call, every stored
row carrying the mutated order's id has its price equal to the sum of
quantidade times preco_unitario over the order's current item set, recomputed
from the full item table. -/
theorem C1_preco_recomputado (db : DB) (u : Usuario) (idc : Nat)
    (sch : ItemPedidoSchema) (nid : Nat) (db2 : DB) (p2 : Pedido) :
    (adicionar_item_pedido db u idc sch nid = (db2, .ok p2) →
      ∀ q ∈ db2.pedidos, q.id = p2.id →
        q.preco = ((db2.itens.filter (fun it => it.pedido == q.id)).map
          (fun it => it.preco_unitario * (it.quantidade : ℚ))).sum) ∧
    (remover_item_pedido db u idc = (db2, .ok p2) →
      ∀ q ∈ db2.pedidos, q.id = p2.id →
        q.preco = ((db2.itens.filter (fun it => it.pedido == q.id)).map
          (fun it => it.preco_unitario * (it.quantidade : ℚ))).sum) := by
  constructor
  · intro hrun q hq hid
    cases hob : obter_pedido_autorizado db u idc with
    | error e => simp [adicionar_item_pedido, hob] at hrun
    | ok pedido =>
      simp only [adicionar_item_pedido, hob, Prod.mk.injEq, Except.ok.injEq] at hrun
      obtain ⟨hdb, hp⟩ := hrun
      subst hdb
      subst hp
      have hq2 := mem_atualizar_pedido hq hid
      subst hq2
      simp [atualizar_pedido, calcular_preco, DB.itensDoPedido]
  · intro hrun q hq hid
    cases hob : obter_item_pedido_autorizado db u idc with
    | error e => simp [remover_item_pedido, hob] at hrun
    | ok item =>
      cases hpar : db.pedidos.find? (fun p => p.id == item.pedido) with
      | none => simp [remover_item_pedido, hob, hpar] at hrun
      | some pedido =>
        simp only [remover_item_pedido, hob, hpar, Prod.mk.injEq,
          Except.ok.injEq] at hrun
        obtain ⟨hdb, hp⟩ := hrun
        subst hdb
        subst hp
        have hq2 := mem_atualizar_pedido hq hid
        subst hq2
        simp [atualizar_pedido, calcular_preco, DB.itensDoPedido]

/-- Witness for C1: after adding two items of unit price 10 to the empty
pending order, its stored price is the recomputed sum 20. -/
theorem C1_preco_recomputado_witness :
    exC1P2.preco = ((exC1DB2.itens.filter (fun it => it.pedido == exC1P2.id)).map
      (fun it => it.preco_unitario * (it.quantidade : ℚ))).sum :=
  (C1_preco_recomputado exDB exUser 1 exSchema 9 exC1DB2 exC1P2).1
    (by norm_num [adicionar_item_pedido, obter_pedido_autorizado, atualizar_pedido,
      calcular_preco, DB.itensDoPedido, exDB, exUser, exPedido1, exPedido2,
      exItem1, exSchema, exC1DB2, exC1P2])
    exC1P2
    (by norm_num [adicionar_item_pedido, obter_pedido_autorizado, atualizar_pedido,
      calcular_preco, DB.itensDoPedido, exDB, exUser, exPedido1, exPedido2,
      exItem1, exSchema, exC1DB2, exC1P2])
    (by rfl)

/-- C4: for the order- and item-targeting operations, a missing target yields
404 for every caller (existence is checked first); an existing target yields
403 exactly when the caller is neither admin nor the owner (for an item, the
owner of its parent order); otherwise the resource is handed to the operation.
An authorization failure aborts GetOne, Cancel, Finalize, AddItem and
RemoveItem with that error and an unchanged store. -/
theorem C4_autorizacao (db : DB) (u : Usuario) (idp idi : Nat) :
    (db.pedidos.find? (fun p => p.id == idp) = none →
      obter_pedido_autorizado db u idp = .error ⟨404, "Pedido não encontrado"⟩) ∧
    (∀ pedido, db.pedidos.find? (fun p => p.id == idp) = some pedido →
      (u.admin = false → u.id ≠ pedido.usuario →
        obter_pedido_autorizado db u idp =
          .error ⟨403, "Você não tem autorização para realizar esta ação"⟩) ∧
      ((u.admin = true ∨ u.id = pedido.usuario) →
        obter_pedido_autorizado db u idp = .ok pedido)) ∧
    (db.itens.find? (fun it => it.id == idi) = none →
      obter_item_pedido_autorizado db u idi =
        .error ⟨404, "Item de pedido não encontrado"⟩) ∧
    (∀ item pai, db.itens.find? (fun it => it.id == idi) = some item →
      db.pedidos.find? (fun p => p.id == item.pedido) = some pai →
      (u.admin = false → u.id ≠ pai.usuario →
        obter_item_pedido_autorizado db u idi =
          .error ⟨403, "Você não tem autorização para realizar esta ação"⟩) ∧
      ((u.admin = true ∨ u.id = pai.usuario) →
        obter_item_pedido_autorizado db u idi = .ok item)) ∧
    (∀ e, obter_pedido_autorizado db u idp = .error e →
      visualizar_pedido db u idp = .error e ∧
      cancelar_pedido db u idp = (db, .error e) ∧
      finalizar_pedido db u idp = (db, .error e) ∧
      ∀ sch nid, adicionar_item_pedido db u idp sch nid = (db, .error e)) ∧
    (∀ e, obter_item_pedido_autorizado db u idi = .error e →
      remover_item_pedido db u idi = (db, .error e)) := by
  refine ⟨?_, ?_, ?_, ?_, ?_, ?_⟩
  · intro hf
    simp [obter_pedido_autorizado, hf]
  · intro pedido hf
    constructor
    · intro h1 h2
      simp [obter_pedido_autorizado, hf, h1, h2]
    · intro h
      rcases h with h | h <;> simp [obter_pedido_autorizado, hf, h]
  · intro hf
    simp [obter_item_pedido_autorizado, hf]
  · intro item pai hf hpar
    constructor
    · intro h1 h2
      simp [obter_item_pedido_autorizado, hf, hpar, h1, h2]
    · intro h
      rcases h with h | h <;> simp [obter_item_pedido_autorizado, hf, hpar, h]
  · intro e he
    exact ⟨he, by simp [cancelar_pedido, he], by simp [finalizar_pedido, he],
      fun sch nid => by simp [adicionar_item_pedido, he]⟩
  · intro e he
    simp [remover_item_pedido, he]

/-- Witness for C4: a missing order id gives 404 even to a non-owner; a
non-owner on an existing order gives 403; the owner gets the order; Cancel
propagates the 403 with the store unchanged. -/
theorem C4_autorizacao_witness :
    obter_pedido_autorizado exDB exOutro 99 = .error ⟨404, "Pedido não encontrado"⟩ ∧
    obter_pedido_autorizado exDB exOutro 1 =
      .error ⟨403, "Você não tem autorização para realizar esta ação"⟩ ∧
    obter_pedido_autorizado exDB exUser 1 = .ok exPedido1 ∧
    cancelar_pedido exDB exOutro 1 =
      (exDB, .error ⟨403, "Você não tem autorização para realizar esta ação"⟩) ∧
    remover_item_pedido exDB exOutro 1 =
      (exDB, .error ⟨403, "Você não tem autorização para realizar esta ação"⟩) :=
  ⟨(C4_autorizacao exDB exOutro 99 99).1 (by rfl),
   ((C4_autorizacao exDB exOutro 1 1).2.1 exPedido1 (by rfl)).1 (by rfl) (by decide),
   ((C4_autorizacao exDB exUser 1 1).2.1 exPedido1 (by rfl)).2 (Or.inr (by rfl)),
   ((C4_autorizacao exDB exOutro 1 1).2.2.2.2.1
      ⟨403, "Você não tem autorização para realizar esta ação"⟩
      (((C4_autorizacao exDB exOutro 1 1).2.1 exPedido1 (by rfl)).1
        (by rfl) (by decide))).2.1,
   (C4_autorizacao exDB exOutro 1 1).2.2.2.2.2
      ⟨403, "Você não tem autorização para realizar esta ação"⟩
      (((C4_autorizacao exDB exOutro 1 1).2.2.2.1 exItem1 exPedido2 (by rfl)
        (by rfl)).1 (by rfl) (by decide))⟩

/-- C5 fails as stated: the optional identity resolution is not total.  A
token that decodes and verifies but whose subject claim is the digit-free
string "abc" — on which the Python builtin `int` raises ValueError, so the
builtin parameter is instantiated to `none` there — makes the resolution
raise an uncaught ValueError (`int(id_usuario)` sits outside the try/except
in the source) instead of returning no identity. -/
theorem C5_contraexemplo :
    pegar_usuario_logado_opcional (fun _ => some { sub := some ("abc") })
        (fun _ => none) exDB (some ("tok")) = .error ("ValueError") ∧
    pegar_usuario_logado_opcional (fun _ => some { sub := some ("abc") })
        (fun _ => none) exDB (some ("tok")) ≠ .ok none := by
  have h1 : pegar_usuario_logado_opcional (fun _ => some { sub := some ("abc") })
      (fun _ => none) exDB (some ("tok")) = .error ("ValueError") := rfl
  refine ⟨h1, fun h => ?_⟩
  rw [h1] at h
  exact Except.noConfusion h

/-- C5 amended: the optional identity resolution returns no identity when the
token is absent, fails to decode (malformed, expired, bad signature), lacks a
subject claim, or carries a subject the `int` builtin accepts that matches no
stored account; but a decoded token whose subject makes `int()` raise raises
an uncaught ValueError instead of returning no identity. -/
theorem C5_resolucao_opcional (decode : String → Option JwtPayload)
    (int_py : String → Option Int) (db : DB) (t : String) :
    pegar_usuario_logado_opcional decode int_py db none = .ok none ∧
    (decode t = none →
      pegar_usuario_logado_opcional decode int_py db (some t) = .ok none) ∧
    (∀ payload, decode t = some payload → payload.sub = none →
      pegar_usuario_logado_opcional decode int_py db (some t) = .ok none) ∧
    (∀ payload s n, decode t = some payload → payload.sub = some s →
      int_py s = some n →
      pegar_usuario_logado_opcional decode int_py db (some t) =
        .ok (db.usuarios.find? (fun u => (u.id : Int) == n))) ∧
    (∀ payload s, decode t = some payload → payload.sub = some s →
      int_py s = none →
      pegar_usuario_logado_opcional decode int_py db (some t) =
        .error ("ValueError")) := by
  refine ⟨rfl, ?_, ?_, ?_, ?_⟩
  · intro hdec
    simp [pegar_usuario_logado_opcional, hdec]
  · intro payload hdec hsub
    simp [pegar_usuario_logado_opcional, hdec, hsub]
  · intro payload s n hdec hsub hint
    simp [pegar_usuario_logado_opcional, hdec, hsub, hint]
  · intro payload s hdec hsub hint
    simp [pegar_usuario_logado_opcional, hdec, hsub, hint]

/-- Witness for C5 (amended): a token the library rejects resolves to no
identity, and a verified subject the builtin parses as 1 resolves to the
stored account. -/
theorem C5_resolucao_opcional_witness :
    pegar_usuario_logado_opcional (fun _ => none) (fun _ => none) exDB
        (some ("x")) = .ok none ∧
    pegar_usuario_logado_opcional (fun _ => some { sub := some ("1") })
        (fun s => if s == ("1") then some 1 else none) exDB
        (some ("x")) = .ok (some exUser) := by
  constructor
  · exact (C5_resolucao_opcional (fun _ => none) (fun _ => none) exDB "x").2.1 rfl
  · have h := (C5_resolucao_opcional (fun _ => some { sub := some ("1") })
      (fun s => if s == ("1") then some 1 else none) exDB
      "x").2.2.2.1 { sub := some ("1") } "1" 1 rfl rfl (by rfl)
    rw [h]
    rfl

/-- C6: AddItem and RemoveItem carry no status guard: once authorization
passes they succeed for every current status, including FINALIZADO and
CANCELADO, the order's status is unchanged (in the returned order and in every
stored row carrying its id), and the price is recomputed from the mutated item
set. -/
theorem C6_sem_guarda_de_status :
    (∀ (db : DB) (u : Usuario) (idp : Nat) (sch : ItemPedidoSchema) (nid : Nat)
        (pedido : Pedido), obter_pedido_autorizado db u idp = .ok pedido →
      (adicionar_item_pedido db u idp sch nid).2 =
        .ok { pedido with preco := (calcular_preco
            ((adicionar_item_pedido db u idp sch nid).1.itensDoPedido pedido.id)) } ∧
      ∀ q ∈ (adicionar_item_pedido db u idp sch nid).1.pedidos, q.id = pedido.id →
        q.status = pedido.status) ∧
    (∀ (db : DB) (u : Usuario) (idi : Nat) (item : ItemPedido) (pai : Pedido),
      obter_item_pedido_autorizado db u idi = .ok item →
      db.pedidos.find? (fun p => p.id == item.pedido) = some pai →
      (remover_item_pedido db u idi).2 =
        .ok { pai with preco := (calcular_preco
            ((remover_item_pedido db u idi).1.itensDoPedido pai.id)) } ∧
      ∀ q ∈ (remover_item_pedido db u idi).1.pedidos, q.id = pai.id →
        q.status = pai.status) := by
  constructor
  · intro db u idp sch nid pedido hob
    constructor
    · simp [adicionar_item_pedido, hob, atualizar_pedido, DB.itensDoPedido]
    · intro q hq hid
      simp only [adicionar_item_pedido, hob] at hq
      have hqe := mem_atualizar_pedido hq hid
      subst hqe
      rfl
  · intro db u idi item pai hob hpar
    constructor
    · simp [remover_item_pedido, hob, hpar, atualizar_pedido, DB.itensDoPedido]
    · intro q hq hid
      simp only [remover_item_pedido, hob, hpar] at hq
      have hqe := mem_atualizar_pedido hq hid
      subst hqe
      rfl

/-- Witness for C6: both mutations succeed on the FINALIZADO example order,
returning it with its status intact and its price recomputed. -/
theorem C6_sem_guarda_de_status_witness :
    (adicionar_item_pedido exDB exUser 2 exSchema 9).2 =
      .ok { exPedido2 with preco := (calcular_preco
          ((adicionar_item_pedido exDB exUser 2 exSchema 9).1.itensDoPedido
            exPedido2.id)) } ∧
    (remover_item_pedido exDB exUser 1).2 =
      .ok { exPedido2 with preco := (calcular_preco
          ((remover_item_pedido exDB exUser 1).1.itensDoPedido exPedido2.id)) } :=
  ⟨(C6_sem_guarda_de_status.1 exDB exUser 2 exSchema 9 exPedido2 (by rfl)).1,
   (C6_sem_guarda_de_status.2 exDB exUser 1 exItem1 exPedido2 (by rfl) (by rfl)).1⟩


/-- C7: registering with an email that already has an account fails with the
duplicate-email error and leaves the store unchanged; otherwise exactly one
account is appended, with admin false, ativo true, and the bcrypt hash of the
password as the stored senha (never the plaintext, whenever the hash differs
from its input). -/
theorem C7_registro (hash : String → String) (db : DB) (sch : UsuarioSchema)
    (nid : Nat) :
    (∀ u, db.usuarios.find? (fun x => x.email == sch.email) = some u →
      criar_conta hash db sch nid =
        (db, .error ⟨400, "Já existe um usuário com esse email"⟩)) ∧
    (db.usuarios.find? (fun x => x.email == sch.email) = none →
      criar_conta hash db sch nid =
        ({ db with usuarios := db.usuarios ++
            [{ id := nid, nome := sch.nome, email := sch.email,
               senha := hash sch.senha, ativo := true, admin := false }] },
         .ok ("Usuário " ++ sch.email ++ " criado com sucesso")) ∧
      (hash sch.senha ≠ sch.senha →
        ∀ u ∈ (criar_conta hash db sch nid).1.usuarios, u ∉ db.usuarios →
          u.senha ≠ sch.senha)) := by
  constructor
  · intro u hf
    simp [criar_conta, hf]
  · intro hf
    constructor
    · simp [criar_conta, hf]
    · intro hneq u hu hnotin
      simp only [criar_conta, hf] at hu
      rcases List.mem_append.1 hu with h | h
      · exact absurd h hnotin
      · rcases List.mem_singleton.1 h with rfl
        exact hneq

/-- Witness for C7: re-registering the taken example email fails and leaves
the store unchanged; a fresh email appends the single hashed account. -/
theorem C7_registro_witness :
    criar_conta (fun s => "h:" ++ s) exDB
        { nome := "Ana2", email := "ana@x.com", senha := "pw", ativo := true } 9 =
      (exDB, .error ⟨400, "Já existe um usuário com esse email"⟩) ∧
    criar_conta (fun s => "h:" ++ s) exDB
        { nome := "Caio", email := "caio@x.com", senha := "pw", ativo := true } 9 =
      ({ exDB with usuarios := exDB.usuarios ++
          [{ id := 9, nome := "Caio", email := "caio@x.com",
             senha := "h:pw", ativo := true, admin := false }] },
       .ok ("Usuário caio@x.com criado com sucesso")) :=
  ⟨(C7_registro (fun s => "h:" ++ s) exDB
      { nome := "Ana2", email := "ana@x.com", senha := "pw", ativo := true } 9).1
      exUser (by rfl),
   ((C7_registro (fun s => "h:" ++ s) exDB
      { nome := "Caio", email := "caio@x.com", senha := "pw", ativo := true } 9).2
      (by rfl)).1⟩

/-- C8: a non-admin identity calling ListAll always gets 403 (and an admin
gets every order); ListMine is total and returns exactly the orders whose
owner field is the caller id. -/
theorem C8_listagem (db : DB) (u : Usuario) :
    (u.admin = false →
      listar_todos_pedidos db u =
        .error ⟨403, "Você não tem autorização para acessar esta rota"⟩) ∧
    (u.admin = true → listar_todos_pedidos db u = .ok db.pedidos) ∧
    (∀ p : Pedido, p ∈ listar_meus_pedidos db u ↔ p ∈ db.pedidos ∧ p.usuario = u.id) := by
  refine ⟨?_, ?_, ?_⟩
  · intro h
    simp [listar_todos_pedidos, h]
  · intro h
    simp [listar_todos_pedidos, h]
  · intro p
    simp [listar_meus_pedidos, List.mem_filter]

/-- Witness for C8: the non-admin example user is refused ListAll, the admin
is not, and ListMine contains the user-owned order but not the id check fails
for no owned order. -/
theorem C8_listagem_witness :
    listar_todos_pedidos exDB exUser =
      .error ⟨403, "Você não tem autorização para acessar esta rota"⟩ ∧
    listar_todos_pedidos exDB exAdmin = .ok exDB.pedidos ∧
    exPedido1 ∈ listar_meus_pedidos exDB exUser ∧
    exPedido1 ∉ listar_meus_pedidos exDB exOutro :=
  ⟨(C8_listagem exDB exUser).1 rfl,
   (C8_listagem exDB exAdmin).2.1 rfl,
   ((C8_listagem exDB exUser).2.2 exPedido1).2 ⟨by decide, rfl⟩,
   fun h => absurd (((C8_listagem exDB exOutro).2.2 exPedido1).1 h).2 (by decide)⟩

/-- C9: login failure is constant-shape: a run where the email matches no
account and a run where the account exists but password verification fails
return the identical 401 InvalidCredentials error, revealing nothing about
whether the email existed. -/
theorem C9_falha_constante (v1 v2 : String → String → Bool) (m1 m2 t1 t2 : Nat)
    (db1 db2 : DB) (e1 s1 e2 s2 : String) (u : Usuario)
    (h1 : db1.usuarios.find? (fun x => x.email == e1) = none)
    (h2 : db2.usuarios.find? (fun x => x.email == e2) = some u)
    (h3 : v2 s2 u.senha = false) :
    login v1 m1 t1 db1 e1 s1 = login v2 m2 t2 db2 e2 s2 ∧
    login v1 m1 t1 db1 e1 s1 = .error ⟨401, "Usuário ou senha inválidos"⟩ := by
  have ha : autenticar_usuario v1 e1 s1 db1 = none := by
    simp [autenticar_usuario, h1]
  have hb : autenticar_usuario v2 e2 s2 db2 = none := by
    simp [autenticar_usuario, h2, h3]
  constructor
  · simp [login, ha, hb]
  · simp [login, ha]

/-- Witness for C9: an unknown email and a wrong password against the example
store produce the same 401 error. -/
theorem C9_falha_constante_witness :
    login (fun s h => s == h) 30 0 exDB "ghost@x.com" "pw" =
      login (fun s h => s == h) 30 0 exDB "ana@x.com" "errada" ∧
    login (fun s h => s == h) 30 0 exDB "ghost@x.com" "pw" =
      .error ⟨401, "Usuário ou senha inválidos"⟩ :=
  C9_falha_constante (fun s h => s == h) (fun s h => s == h) 30 30 0 0 exDB exDB
    "ghost@x.com" "pw" "ana@x.com" "errada" exUser (by rfl) (by rfl) (by decide)

/-- C10: the ativo flag is never consulted: an account with ativo false still
authenticates with the correct password, login still issues its token pair,
and optional identity resolution from a verified token with its integer id as
subject still resolves the account. -/
theorem C10_ativo_ignorado (verify : String → String → Bool) (db : DB)
    (u : Usuario) (email senha : String) (decode : String → Option JwtPayload)
    (int_py : String → Option Int) (t s : String) (payload : JwtPayload)
    (n : Int) (m agora : Nat)
    (hativo : u.ativo = false)
    (hfind : db.usuarios.find? (fun x => x.email == email) = some u)
    (hver : verify senha u.senha = true) :
    autenticar_usuario verify email senha db = some u ∧
    login verify m agora db email senha =
      .ok { access_token := criar_token u.id m agora
            refresh_token := some (criar_token u.id (7 * 24 * 60) agora)
            token_type := "Bearer" } ∧
    (decode t = some payload → payload.sub = some s → int_py s = some n →
      db.usuarios.find? (fun x => (x.id : Int) == n) = some u →
      pegar_usuario_logado_opcional decode int_py db (some t) = .ok (some u)) := by
  have ha : autenticar_usuario verify email senha db = some u := by
    simp [autenticar_usuario, hfind, hver]
  refine ⟨ha, by simp [login, ha], ?_⟩
  intro hdec hsub hint hfind2
  simp [pegar_usuario_logado_opcional, hdec, hsub, hint, hfind2]

/-- Witness for C10: the deactivated example account authenticates, gets
its token pair, and resolves from a token whose subject is its id. -/
theorem C10_ativo_ignorado_witness :
    autenticar_usuario (fun s h => s == h) "ina@x.com" "h4" exDB = some exInativo ∧
    login (fun s h => s == h) 30 0 exDB "ina@x.com" "h4" =
      .ok { access_token := criar_token 4 30 0
            refresh_token := some (criar_token 4 (7 * 24 * 60) 0)
            token_type := "Bearer" } ∧
    pegar_usuario_logado_opcional (fun _ => some { sub := some ("4") })
        (fun x => if x == ("4") then some 4 else none) exDB
        (some ("tok")) = .ok (some exInativo) := by
  obtain ⟨ha, hl, hr⟩ := C10_ativo_ignorado (fun s h => s == h) exDB exInativo
    "ina@x.com" "h4" (fun _ => some { sub := some ("4") })
    (fun x => if x == ("4") then some 4 else none) "tok" "4"
    { sub := some ("4") } 4 30 0 rfl (by rfl) (by decide)
  exact ⟨ha, hl, hr rfl rfl (by rfl) (by rfl)⟩

end SistemaDePedidos
